import Mathlib

/-!
Shallow embedding of the stripe geometry updater of the Lighfer/cesium
repository (Source/DataSources/StripeGeometryUpdater.js and
Source/DataSources/StripeGraphics.js), together with theorems checking the
natural-language specification against it.

JavaScript `undefined` is modelled by `Option.none`; JS numbers that the
claims only compare for equality (heights, widths, colors) are modelled by
`Int`; a time-varying Cesium `Property` is modelled by a record holding its
`isConstant` flag and its sampling function.  External collaborators that
live outside the analysed sources (the offset-attribute policy table, the
bounding-rectangle computation of `StripeGeometry`, and the approximate
terrain-height table) are passed in as explicit function parameters.
-/

namespace Cesium

/-- Julian dates are opaque time stamps; the claims never do arithmetic on
them, so an integer token suffices. -/
abbrev Time := Int

/-- Color values are opaque tokens. -/
abbrev ColorV := Int

/-- A 3D cartesian point (`Cartesian3`); components are opaque numeric
tokens.  `Cartesian3.clone` is the identity in value semantics. -/
abbrev Point := Int × Int × Int

/-- An opaque bounding-rectangle token (`Rectangle`). -/
abbrev Rect := Int

/-- Modelled from the spec: the fixed "beginning of time" epoch
(`Iso8601.MINIMUM_VALUE`), an external constant; only its identity
matters. -/
def Iso8601.MINIMUM_VALUE : Time := 0

/-- The `HeightReference` enumeration from Scene/HeightReference.js
(external). -/
inductive HeightReference
  | NONE
  | CLAMP_TO_GROUND
  | RELATIVE_TO_GROUND
deriving DecidableEq, Repr

/-- The `CornerType` enumeration (external). -/
inductive CornerType
  | ROUNDED
  | MITERED
  | BEVELED
deriving DecidableEq, Repr

/-- The `GeometryOffsetAttribute` enumeration: which vertices receive a
render-time vertical offset.  The JS code encodes "none" as `undefined`,
so options store `Option OffsetKind`. -/
inductive OffsetKind
  | ALL
  | TOP
deriving DecidableEq, Repr

/-- Modelled from the spec: a resolved geometry height is either a plain
numeric height or the distinguished CLAMP_TO_GROUND sentinel
(`GroundGeometryUpdater.CLAMP_TO_GROUND`, external) meaning "clamp at draw
time". -/
inductive GeomHeight
  | val (h : Int)
  | clampSentinel
deriving DecidableEq, Repr

/-- Modelled from the spec: the PropertySampler interface — a time-indexed
value source that reports whether the bound value is constant over time.
Sampling may yield no value (`getValue` returning `undefined`). -/
structure PropertyM (α : Type) where
  isConstant : Bool
  getValue : Time → Option α

/-- Modelled from the spec: `PropertySampler.getValueOrUndefined(property,
time)` — `undefined` when the property itself is undefined, otherwise the
sampled value. -/
def Property.getValueOrUndefined {α : Type} (p : Option (PropertyM α)) (t : Time) : Option α :=
  match p with
  | none => none
  | some q => q.getValue t

/-- Modelled from the spec: `PropertySampler.getValueOrDefault(property,
time, default)` — the default when the property is undefined or samples to
`undefined`. -/
def Property.getValueOrDefault {α : Type} (p : Option (PropertyM α)) (t : Time) (d : α) : α :=
  match p with
  | none => d
  | some q => (q.getValue t).getD d

/-- Modelled from the spec: `PropertySampler.isConstant(property)`; an
undefined property cannot vary, hence counts as constant. -/
def Property.isConstant {α : Type} (p : Option (PropertyM α)) : Bool :=
  match p with
  | none => true
  | some q => q.isConstant

/-- A material property, branched in the source by an `instanceof
ColorMaterialProperty` test; modelled as a tagged union.  A color material
carries its optional `color` sub-property. -/
inductive MaterialProperty
  | colorMaterial (isConstant : Bool) (color : Option (PropertyM ColorV))
  | otherMaterial (isConstant : Bool)

/-- Modelled from the spec: `PropertySampler.isConstant` applied to a
material property. -/
def Property.isConstantMaterial (m : Option MaterialProperty) : Bool :=
  match m with
  | none => true
  | some (.colorMaterial c _) => c
  | some (.otherMaterial c) => c

/-- The `instanceof ColorMaterialProperty` runtime type test (false on
`undefined`). -/
def instanceofColorMaterialProperty (m : Option MaterialProperty) : Bool :=
  match m with
  | some (.colorMaterial _ _) => true
  | _ => false

/-- `Color.WHITE`, the opaque-white fallback color (external constant). -/
def Color.WHITE : ColorV := 0

/-- The stripe shape descriptor (`StripeGraphics`): one optional property
per declarative field, as listed in the source's field set. -/
structure StripeGraphicsData where
  «show» : Option (PropertyM Bool)
  positions : Option (PropertyM (List Point))
  width : Option (PropertyM Int)
  height : Option (PropertyM Int)
  heightReference : Option (PropertyM HeightReference)
  extrudedHeight : Option (PropertyM Int)
  extrudedHeightReference : Option (PropertyM HeightReference)
  cornerType : Option (PropertyM CornerType)
  granularity : Option (PropertyM Int)
  fill : Option (PropertyM Bool)
  material : Option MaterialProperty
  outline : Option (PropertyM Bool)
  outlineColor : Option (PropertyM ColorV)
  outlineWidth : Option (PropertyM Int)
  shadows : Option (PropertyM Int)
  distanceDisplayCondition : Option (PropertyM (Int × Int))
  classificationType : Option (PropertyM Int)
  zIndex : Option (PropertyM Int)

/-- `defaultValue(a, b)` from Core/defaultValue.js: `a` when defined, else
`b`. -/
def defaultValue {α : Type} (a b : Option α) : Option α :=
  match a with
  | some x => some x
  | none => b

/-- Error signals: `DeveloperError` (precondition violation) versus a plain
JavaScript `Error` (the unsupported-feature signal). -/
inductive Signal
  | developerError (msg : String)
  | jsError (msg : String)
deriving DecidableEq, Repr

/-- `StripeGraphics.merge(source)`: assigns each unassigned field of `g`
the corresponding field of `source`; throws a `DeveloperError` when
`source` is undefined.  Value-level embedding of
Source/DataSources/StripeGraphics.js lines 157-196. -/
def StripeGraphics.merge (g : StripeGraphicsData) (source : Option StripeGraphicsData) :
    Except Signal StripeGraphicsData :=
  match source with
  | none => .error (.developerError "source is required.")
  | some s => .ok
      { «show» := defaultValue g.«show» s.«show»
        positions := defaultValue g.positions s.positions
        width := defaultValue g.width s.width
        height := defaultValue g.height s.height
        heightReference := defaultValue g.heightReference s.heightReference
        extrudedHeight := defaultValue g.extrudedHeight s.extrudedHeight
        extrudedHeightReference :=
          defaultValue g.extrudedHeightReference s.extrudedHeightReference
        cornerType := defaultValue g.cornerType s.cornerType
        granularity := defaultValue g.granularity s.granularity
        fill := defaultValue g.fill s.fill
        material := defaultValue g.material s.material
        outline := defaultValue g.outline s.outline
        outlineColor := defaultValue g.outlineColor s.outlineColor
        outlineWidth := defaultValue g.outlineWidth s.outlineWidth
        shadows := defaultValue g.shadows s.shadows
        distanceDisplayCondition :=
          defaultValue g.distanceDisplayCondition s.distanceDisplayCondition
        classificationType :=
          defaultValue g.classificationType s.classificationType
        zIndex := defaultValue g.zIndex s.zIndex }

/-- The vertex format chosen for the mesh: either
`PerInstanceColorAppearance.VERTEX_FORMAT` or
`MaterialAppearance.MaterialSupport.TEXTURED.vertexFormat` (two distinct
external constants). -/
inductive VertexFormat
  | perInstanceColor
  | texturedMaterial
deriving DecidableEq, Repr

/-- The `StripeGeometryOptions` working record (source lines 27-39); `id`
is the back-reference to the owning entity, kept as an opaque token. -/
structure StripeGeometryOptions where
  id : Nat
  vertexFormat : Option VertexFormat
  positions : Option (List Point)
  width : Option Int
  cornerType : Option CornerType
  height : Option GeomHeight
  extrudedHeight : Option GeomHeight
  granularity : Option Int
  offsetAttribute : Option OffsetKind

/-- The min/max pair returned by the terrain height approximator
(`ApproximateTerrainHeights.getMinimumMaximumHeights`). -/
structure MinMaxHeights where
  minimumTerrainHeight : Int
  maximumTerrainHeight : Int

/-- External collaborators used by the resolution passes, passed in
explicitly: the offset-attribute policy table
(`GroundGeometryUpdater.computeGeometryOffsetAttribute`), the bounding
rectangle of the shape (`StripeGeometry.computeRectangle`) and the terrain
height approximator (`ApproximateTerrainHeights`). -/
structure Externals where
  computeGeometryOffsetAttribute :
    Option Int → HeightReference → Option Int → HeightReference → Option OffsetKind
  computeRectangle : StripeGeometryOptions → Rect
  getMinimumMaximumHeights : Rect → MinMaxHeights

/-- Modelled from the spec: `GroundGeometryUpdater.getGeometryHeight`
(height reference resolution, step 3 of the shared algorithm): NONE and
RELATIVE_TO_GROUND leave the height unchanged, CLAMP_TO_GROUND turns it
into the clamp sentinel; an undefined height stays undefined. -/
def GroundGeometryUpdater.getGeometryHeight (h : Option Int) (ref : HeightReference) :
    Option GeomHeight :=
  match h with
  | none => none
  | some hv =>
    match ref with
    | .NONE => some (.val hv)
    | .RELATIVE_TO_GROUND => some (.val hv)
    | .CLAMP_TO_GROUND => some .clampSentinel

/-- Modelled from the spec: `GroundGeometryUpdater.getGeometryExtrudedHeight`
(step 4 of the shared algorithm, analogous to step 3). -/
def GroundGeometryUpdater.getGeometryExtrudedHeight (h : Option Int) (ref : HeightReference) :
    Option GeomHeight :=
  match h with
  | none => none
  | some hv =>
    match ref with
    | .NONE => some (.val hv)
    | .RELATIVE_TO_GROUND => some (.val hv)
    | .CLAMP_TO_GROUND => some .clampSentinel

/-- The owning entity, with the pieces of state the updater reads:
visibility flag, availability interval test, an identity token and its
stripe descriptor. -/
structure Entity where
  id : Nat
  isShowing : Bool
  isAvailable : Time → Bool
  stripe : StripeGraphicsData

/-- The state of a `StripeGeometryUpdater` that the analysed methods read.
The fields other than `options` are initialised by the `GeometryUpdater` /
`GroundGeometryUpdater` base classes (outside the analysed sources) and are
modelled from the spec: `showProperty` and `fillProperty` sample to
booleans, `fillEnabled` and `onTerrain` are flags, and
`distanceDisplayConditionProperty` and `terrainOffsetProperty` are sampled
properties. -/
structure UpdaterState where
  entity : Entity
  fillEnabled : Bool
  onTerrain : Bool
  showProperty : Time → Bool
  fillProperty : Time → Bool
  distanceDisplayConditionProperty : Time → Option (Int × Int)
  materialProperty : Option MaterialProperty
  terrainOffsetProperty : Option (PropertyM Point)
  options : StripeGeometryOptions

/-- `StripeGeometryUpdater._isHidden` (source lines 58-64): hidden when the
descriptor's positions or width property is undefined, otherwise whatever
the generic `GeometryUpdater._isHidden` base predicate says; the base
predicate lives outside the analysed sources and is modelled from the spec
as an opaque boolean input `baseHidden`. -/
def StripeGeometryUpdater.isHidden (baseHidden : Bool) (stripe : StripeGraphicsData) : Bool :=
  !stripe.positions.isSome || !stripe.width.isSome || baseHidden

/-- `StripeGeometryUpdater._isDynamic` (source lines 205-219).  The method
dereferences `stripe.positions.isConstant` directly, so an undefined
positions property makes the JS throw; that case is modelled as `none`. -/
def StripeGeometryUpdater.isDynamic (u : UpdaterState) (stripe : StripeGraphicsData) :
    Option Bool :=
  match stripe.positions with
  | none => none
  | some pp => some (
      !pp.isConstant ||
      !Property.isConstant stripe.height ||
      !Property.isConstant stripe.extrudedHeight ||
      !Property.isConstant stripe.granularity ||
      !Property.isConstant stripe.width ||
      !Property.isConstant stripe.outlineWidth ||
      !Property.isConstant stripe.cornerType ||
      !Property.isConstant stripe.zIndex ||
      (u.onTerrain &&
        !Property.isConstantMaterial u.materialProperty &&
        !instanceofColorMaterialProperty u.materialProperty))

/-- `StripeGeometryUpdater._computeCenter` (source lines 192-204): samples
the positions at `time`; no value when the sample is undefined or empty,
otherwise a clone of the element at index `floor(length / 2)`. -/
def StripeGeometryUpdater.computeCenter (u : UpdaterState) (time : Time) : Option Point :=
  match Property.getValueOrUndefined u.entity.stripe.positions time with
  | none => none
  | some ps => if ps.length = 0 then none else ps[ps.length / 2]?

/-- The intermediate options record built by `_setStaticOptions` up to and
including the `options.height` assignment (source lines 220-269): every
field is sampled at the fixed epoch `Iso8601.MINIMUM_VALUE`, with the
"extruded but no base height" default applied to the height value before
the offset-attribute computation. -/
def StripeGeometryUpdater.staticOptions1 (ext : Externals)
    (materialProperty : Option MaterialProperty) (stripe : StripeGraphicsData)
    (pp : PropertyM (List Point)) (wp : PropertyM Int)
    (options0 : StripeGeometryOptions) : StripeGeometryOptions :=
  let heightValue0 := Property.getValueOrUndefined stripe.height Iso8601.MINIMUM_VALUE
  let heightReferenceValue :=
    Property.getValueOrDefault stripe.heightReference Iso8601.MINIMUM_VALUE HeightReference.NONE
  let extrudedHeightValue :=
    Property.getValueOrUndefined stripe.extrudedHeight Iso8601.MINIMUM_VALUE
  let extrudedHeightReferenceValue :=
    Property.getValueOrDefault stripe.extrudedHeightReference Iso8601.MINIMUM_VALUE
      HeightReference.NONE
  let heightValue :=
    if extrudedHeightValue.isSome && heightValue0.isNone then some 0 else heightValue0
  { options0 with
    vertexFormat :=
      some (if instanceofColorMaterialProperty materialProperty then
        VertexFormat.perInstanceColor else VertexFormat.texturedMaterial)
    positions := pp.getValue Iso8601.MINIMUM_VALUE
    width := wp.getValue Iso8601.MINIMUM_VALUE
    granularity := Property.getValueOrUndefined stripe.granularity Iso8601.MINIMUM_VALUE
    cornerType := Property.getValueOrUndefined stripe.cornerType Iso8601.MINIMUM_VALUE
    offsetAttribute := ext.computeGeometryOffsetAttribute heightValue heightReferenceValue
      extrudedHeightValue extrudedHeightReferenceValue
    height := GroundGeometryUpdater.getGeometryHeight heightValue heightReferenceValue }

/-- `StripeGeometryUpdater._setStaticOptions` (source lines 220-280): the
intermediate record of `staticOptions1` followed by extruded-height
reference resolution and, when the resolved value is the clamp sentinel,
the terrain lookup over the shape's own bounding rectangle.  The method
dereferences `stripe.positions` and `stripe.width` directly, so an
undefined positions or width property makes the JS throw; that case is
modelled as `none`. -/
def StripeGeometryUpdater.setStaticOptions (ext : Externals)
    (materialProperty : Option MaterialProperty) (stripe : StripeGraphicsData)
    (options0 : StripeGeometryOptions) : Option StripeGeometryOptions :=
  match stripe.positions, stripe.width with
  | some pp, some wp =>
    let o1 := StripeGeometryUpdater.staticOptions1 ext materialProperty stripe pp wp options0
    let e1 := GroundGeometryUpdater.getGeometryExtrudedHeight
      (Property.getValueOrUndefined stripe.extrudedHeight Iso8601.MINIMUM_VALUE)
      (Property.getValueOrDefault stripe.extrudedHeightReference Iso8601.MINIMUM_VALUE
        HeightReference.NONE)
    let e2 :=
      if e1 = some GeomHeight.clampSentinel then
        some (GeomHeight.val
          (ext.getMinimumMaximumHeights (ext.computeRectangle o1)).minimumTerrainHeight)
      else e1
    some { o1 with extrudedHeight := e2 }
  | _, _ => none

/-- The intermediate options record built by
`DynamicStripeGeometryUpdater._setOptions` up to and including the
`options.height` assignment (source lines 300-336): every field is sampled
at the tick time `time` through `getValueOrUndefined`, with the same
height default; `vertexFormat` and `id` are left untouched. -/
def DynamicStripeGeometryUpdater.options1 (ext : Externals) (stripe : StripeGraphicsData)
    (time : Time) (options0 : StripeGeometryOptions) : StripeGeometryOptions :=
  let heightValue0 := Property.getValueOrUndefined stripe.height time
  let heightReferenceValue :=
    Property.getValueOrDefault stripe.heightReference time HeightReference.NONE
  let extrudedHeightValue := Property.getValueOrUndefined stripe.extrudedHeight time
  let extrudedHeightReferenceValue :=
    Property.getValueOrDefault stripe.extrudedHeightReference time HeightReference.NONE
  let heightValue :=
    if extrudedHeightValue.isSome && heightValue0.isNone then some 0 else heightValue0
  { options0 with
    positions := Property.getValueOrUndefined stripe.positions time
    width := Property.getValueOrUndefined stripe.width time
    granularity := Property.getValueOrUndefined stripe.granularity time
    cornerType := Property.getValueOrUndefined stripe.cornerType time
    offsetAttribute := ext.computeGeometryOffsetAttribute heightValue heightReferenceValue
      extrudedHeightValue extrudedHeightReferenceValue
    height := GroundGeometryUpdater.getGeometryHeight heightValue heightReferenceValue }

/-- `DynamicStripeGeometryUpdater._setOptions` (source lines 300-347): the
intermediate record of `DynamicStripeGeometryUpdater.options1` followed by
the same extruded-height resolution and conditional terrain lookup as the
static pass. -/
def DynamicStripeGeometryUpdater.setOptions (ext : Externals) (stripe : StripeGraphicsData)
    (time : Time) (options0 : StripeGeometryOptions) : StripeGeometryOptions :=
  let o1 := DynamicStripeGeometryUpdater.options1 ext stripe time options0
  let e1 := GroundGeometryUpdater.getGeometryExtrudedHeight
    (Property.getValueOrUndefined stripe.extrudedHeight time)
    (Property.getValueOrDefault stripe.extrudedHeightReference time HeightReference.NONE)
  let e2 :=
    if e1 = some GeomHeight.clampSentinel then
      some (GeomHeight.val
        (ext.getMinimumMaximumHeights (ext.computeRectangle o1)).minimumTerrainHeight)
    else e1
  { o1 with extrudedHeight := e2 }

/-- The per-instance attributes of a geometry instance. -/
structure InstanceAttributes where
  «show» : Bool
  distanceDisplayCondition : Option (Int × Int)
  offset : Option Point
  color : Option ColorV
deriving Repr

/-- A `GeometryInstance`: the entity back-reference, the mesh (modelled by
the options record that `new StripeGeometry(options)` consumes) and the
per-instance attributes. -/
structure GeometryInstance where
  id : Nat
  geometry : StripeGeometryOptions
  attributes : InstanceAttributes

/-- The color attribute value computed by `createFillGeometryInstance` for
a color material (source lines 99-114): the sampled color when the
material's color sub-property is defined and is constant or the entity is
available, with opaque white as fallback. -/
def resolveFillColor (m : Option MaterialProperty) (time : Time) (isAvailable : Bool) :
    ColorV :=
  match m with
  | some (.colorMaterial _ (some cp)) =>
    if cp.isConstant || isAvailable then (cp.getValue time).getD Color.WHITE
    else Color.WHITE
  | _ => Color.WHITE

/-- `StripeGeometryUpdater.createFillGeometryInstance` (source lines
75-130), in state-passing style: the pair of the thrown-or-returned result
and the post-call updater state.  The method throws a `DeveloperError`
when fill is not enabled and otherwise builds the instance; it never
writes to the updater's state, so the input state is returned in both
branches. -/
def StripeGeometryUpdater.createFillGeometryInstance (u : UpdaterState) (time : Time) :
    Except Signal GeometryInstance × UpdaterState :=
  if u.fillEnabled then
    let entity := u.entity
    let isAvailable := entity.isAvailable time
    let showValue :=
      isAvailable && entity.isShowing && u.showProperty time && u.fillProperty time
    let color : Option ColorV :=
      if instanceofColorMaterialProperty u.materialProperty then
        some (resolveFillColor u.materialProperty time isAvailable)
      else none
    let offset : Option Point :=
      if (u.options.offsetAttribute).isSome then
        some (Property.getValueOrDefault u.terrainOffsetProperty time (0, 0, 0))
      else none
    (.ok
      { id := entity.id
        geometry := u.options
        attributes :=
          { «show» := showValue
            distanceDisplayCondition := u.distanceDisplayConditionProperty time
            offset := offset
            color := color } }, u)
  else
    (.error (.developerError "This instance does not represent a filled geometry."), u)

/-- `StripeGeometryUpdater.createOutlineGeometryInstance` (source lines
139-140): unconditionally throws a plain `Error` — the unsupported-feature
signal — without reading any state. -/
def StripeGeometryUpdater.createOutlineGeometryInstance (_u : UpdaterState) (_time : Time) :
    Except Signal GeometryInstance :=
  .error (.jsError "outline is an unsupported function")

/-! Concrete fixtures used to instantiate the theorems below. -/

/-- A property that is constant over time with value `a`. -/
def constProp {α : Type} (a : α) : PropertyM α :=
  { isConstant := true, getValue := fun _ => some a }

/-- A property flagged as time-varying, sampling to `a`. -/
def varProp {α : Type} (a : α) : PropertyM α :=
  { isConstant := false, getValue := fun _ => some a }

/-- A stripe descriptor with every field undefined. -/
def emptyStripe : StripeGraphicsData :=
  { «show» := none, positions := none, width := none, height := none
    heightReference := none, extrudedHeight := none, extrudedHeightReference := none
    cornerType := none, granularity := none, fill := none, material := none
    outline := none, outlineColor := none, outlineWidth := none, shadows := none
    distanceDisplayCondition := none, classificationType := none, zIndex := none }

/-- An options record with every field unresolved. -/
def emptyOptions : StripeGeometryOptions :=
  { id := 0, vertexFormat := none, positions := none, width := none
    cornerType := none, height := none, extrudedHeight := none
    granularity := none, offsetAttribute := none }

/-- Trivial external collaborators: no offset ever, a constant bounding
rectangle, terrain heights all zero. -/
def trivialExternals : Externals :=
  { computeGeometryOffsetAttribute := fun _ _ _ _ => none
    computeRectangle := fun _ => 0
    getMinimumMaximumHeights := fun _ => { minimumTerrainHeight := 0, maximumTerrainHeight := 0 } }

/-- An updater over the given stripe descriptor: entity always available
and showing, show and fill properties sampling to true. -/
def mkUpdater (stripe : StripeGraphicsData) (fillEnabled : Bool) : UpdaterState :=
  { entity := { id := 0, isShowing := true, isAvailable := fun _ => true, stripe := stripe }
    fillEnabled := fillEnabled
    onTerrain := false
    showProperty := fun _ => true
    fillProperty := fun _ => true
    distanceDisplayConditionProperty := fun _ => none
    materialProperty := none
    terrainOffsetProperty := none
    options := emptyOptions }

/-! Theorems settling the claims. -/

/-- Claim C5: the static updater's hidden predicate is true whenever the
descriptor's positions or width property is undefined, regardless of the
show and fill properties (which only feed the base predicate); when both
are defined it returns exactly the generic base-hidden predicate's
result. -/
theorem isHidden_spec (baseHidden : Bool) (stripe : StripeGraphicsData) :
    (stripe.positions = none ∨ stripe.width = none →
      StripeGeometryUpdater.isHidden baseHidden stripe = true) ∧
    (stripe.positions ≠ none → stripe.width ≠ none →
      StripeGeometryUpdater.isHidden baseHidden stripe = baseHidden) := by
  constructor
  · intro h
    rcases h with h | h <;> simp [StripeGeometryUpdater.isHidden, h]
  · intro h1 h2
    simp [StripeGeometryUpdater.isHidden, Option.isSome_iff_ne_none, h1, h2]

/-- Witness for C5: on a descriptor with undefined positions the hidden
predicate is true even though the base predicate reports not-hidden. -/
theorem isHidden_spec_witness :
    StripeGeometryUpdater.isHidden false emptyStripe = true :=
  (isHidden_spec false emptyStripe).1 (Or.inl rfl)

/-- Claim C6: with fill disabled, `createFillGeometryInstance` fails with
the `DeveloperError` precondition-violation signal and leaves the updater
state — in particular its owned `GeometryOptions` — unchanged. -/
theorem createFill_fillDisabled (u : UpdaterState) (t : Time)
    (h : u.fillEnabled = false) :
    (StripeGeometryUpdater.createFillGeometryInstance u t).1 =
      .error (.developerError "This instance does not represent a filled geometry.") ∧
    (StripeGeometryUpdater.createFillGeometryInstance u t).2 = u ∧
    ((StripeGeometryUpdater.createFillGeometryInstance u t).2).options = u.options := by
  simp [StripeGeometryUpdater.createFillGeometryInstance, h]

/-- Witness for C6 at a concrete fill-disabled updater. -/
theorem createFill_fillDisabled_witness :
    (StripeGeometryUpdater.createFillGeometryInstance (mkUpdater emptyStripe false) 0).1 =
      .error (.developerError "This instance does not represent a filled geometry.") :=
  (createFill_fillDisabled (mkUpdater emptyStripe false) 0 rfl).1

/-- Claim C7: whenever `createFillGeometryInstance` succeeds, the show
attribute of the returned instance is the conjunction of entity
availability at `t`, the entity showing flag, and the sampled show and
fill properties at `t`. -/
theorem createFill_show (u : UpdaterState) (t : Time) (h : u.fillEnabled = true) :
    ∃ inst, (StripeGeometryUpdater.createFillGeometryInstance u t).1 = .ok inst ∧
      (inst.attributes.«show» = true ↔
        (u.entity.isAvailable t = true ∧ u.entity.isShowing = true ∧
         u.showProperty t = true ∧ u.fillProperty t = true)) := by
  unfold StripeGeometryUpdater.createFillGeometryInstance
  rw [if_pos h]
  exact ⟨_, rfl, by simp [Bool.and_eq_true, and_assoc]⟩

/-- Witness for C7: a visible, available, fill-enabled updater yields an
instance whose show attribute is true. -/
theorem createFill_show_witness :
    ∃ inst,
      (StripeGeometryUpdater.createFillGeometryInstance (mkUpdater emptyStripe true) 0).1 =
        .ok inst ∧ inst.attributes.«show» = true := by
  obtain ⟨inst, h1, h2⟩ := createFill_show (mkUpdater emptyStripe true) 0 rfl
  exact ⟨inst, h1, h2.mpr ⟨rfl, rfl, rfl, rfl⟩⟩

/-- Claim C8: `createOutlineGeometryInstance` fails with the
unsupported-feature signal (a plain `Error`, distinct from the
`DeveloperError` precondition signal) for every updater state and every
time; it never returns an instance. -/
theorem createOutline_spec (u : UpdaterState) (t : Time) :
    StripeGeometryUpdater.createOutlineGeometryInstance u t =
      .error (.jsError "outline is an unsupported function") := rfl

/-- Claim C9: `computeCenter` returns no value when the sampled positions
array is undefined or empty, and otherwise the element at index
`floor(length / 2)` of the sampled array — a specific sample point. -/
theorem computeCenter_spec (u : UpdaterState) (t : Time) :
    (Property.getValueOrUndefined u.entity.stripe.positions t = none →
      StripeGeometryUpdater.computeCenter u t = none) ∧
    (∀ ps, Property.getValueOrUndefined u.entity.stripe.positions t = some ps →
      (ps = [] → StripeGeometryUpdater.computeCenter u t = none) ∧
      (ps ≠ [] → ∃ h : ps.length / 2 < ps.length,
        StripeGeometryUpdater.computeCenter u t = some (ps.get ⟨ps.length / 2, h⟩))) := by
  constructor
  · intro h
    simp [StripeGeometryUpdater.computeCenter, h]
  · intro ps hps
    constructor
    · intro he
      simp [StripeGeometryUpdater.computeCenter, hps, he]
    · intro hne
      have hlen : 0 < ps.length := List.length_pos.mpr hne
      have hlt : ps.length / 2 < ps.length := Nat.div_lt_self hlen (by norm_num)
      refine ⟨hlt, ?_⟩
      simp [StripeGeometryUpdater.computeCenter, hps, Nat.pos_iff_ne_zero.mp hlen,
        List.getElem?_eq_getElem hlt]

/-- A three-point stripe descriptor for the C9 witness. -/
def stripeThreePoints : StripeGraphicsData :=
  { emptyStripe with
    positions := some (constProp [((0 : Int), (0 : Int), (0 : Int)), (1, 0, 0), (2, 0, 0)]) }

/-- Witness for C9: over positions `[(0,0,0),(1,0,0),(2,0,0)]` the center
is the middle vertex `(1,0,0)`, not an average. -/
theorem computeCenter_spec_witness :
    StripeGeometryUpdater.computeCenter (mkUpdater stripeThreePoints true) 0 =
      some (1, 0, 0) := by
  obtain ⟨h, he⟩ :=
    ((computeCenter_spec (mkUpdater stripeThreePoints true) 0).2
      [((0 : Int), (0 : Int), (0 : Int)), (1, 0, 0), (2, 0, 0)] rfl).2 (by decide)
  rw [he]
  rfl

/-- Claim C1: with positions defined, the updater is dynamic iff one of
positions, height, extrudedHeight, granularity, width, outlineWidth,
cornerType, zIndex is non-constant over time, or the shape renders on
terrain with a non-constant material that is not a color material. -/
theorem isDynamic_spec (u : UpdaterState) (stripe : StripeGraphicsData)
    (pp : PropertyM (List Point)) (hpos : stripe.positions = some pp) :
    StripeGeometryUpdater.isDynamic u stripe = some true ↔
      (pp.isConstant = false ∨
       Property.isConstant stripe.height = false ∨
       Property.isConstant stripe.extrudedHeight = false ∨
       Property.isConstant stripe.granularity = false ∨
       Property.isConstant stripe.width = false ∨
       Property.isConstant stripe.outlineWidth = false ∨
       Property.isConstant stripe.cornerType = false ∨
       Property.isConstant stripe.zIndex = false ∨
       (u.onTerrain = true ∧
        Property.isConstantMaterial u.materialProperty = false ∧
        instanceofColorMaterialProperty u.materialProperty = false)) := by
  simp [StripeGeometryUpdater.isDynamic, hpos, Bool.or_eq_true, Bool.and_eq_true,
    Bool.not_eq_true', and_assoc, or_assoc]

/-- A stripe descriptor whose positions property is flagged time-varying,
for the C1 witness. -/
def stripeVaryingPositions : StripeGraphicsData :=
  { emptyStripe with positions := some (varProp []) }

/-- Witness for C1: a descriptor with time-varying positions is dynamic. -/
theorem isDynamic_spec_witness :
    StripeGeometryUpdater.isDynamic (mkUpdater stripeVaryingPositions true)
      stripeVaryingPositions = some true :=
  (isDynamic_spec (mkUpdater stripeVaryingPositions true) stripeVaryingPositions
    (varProp []) rfl).mpr (Or.inl rfl)

/-- `defaultValue` keeps a defined first argument. -/
theorem defaultValue_of_isSome {α : Type} (a b : Option α) (h : a.isSome = true) :
    defaultValue a b = a := by
  cases a with
  | none => simp at h
  | some x => rfl

/-- Claim C10: `merge` with a defined source keeps every already-defined
field of the target, fills each undefined field from the source, and with
an undefined source throws a `DeveloperError` (hence, in this value-level
embedding, produces no modified record at all). -/
theorem merge_spec (g s : StripeGraphicsData) :
    (∃ g', StripeGraphics.merge g (some s) = .ok g' ∧
      (g.«show».isSome = true → g'.«show» = g.«show») ∧
      (g.«show» = none → g'.«show» = s.«show») ∧
      (g.positions.isSome = true → g'.positions = g.positions) ∧
      (g.positions = none → g'.positions = s.positions) ∧
      (g.width.isSome = true → g'.width = g.width) ∧
      (g.width = none → g'.width = s.width) ∧
      (g.height.isSome = true → g'.height = g.height) ∧
      (g.height = none → g'.height = s.height) ∧
      (g.heightReference.isSome = true → g'.heightReference = g.heightReference) ∧
      (g.heightReference = none → g'.heightReference = s.heightReference) ∧
      (g.extrudedHeight.isSome = true → g'.extrudedHeight = g.extrudedHeight) ∧
      (g.extrudedHeight = none → g'.extrudedHeight = s.extrudedHeight) ∧
      (g.extrudedHeightReference.isSome = true →
        g'.extrudedHeightReference = g.extrudedHeightReference) ∧
      (g.extrudedHeightReference = none →
        g'.extrudedHeightReference = s.extrudedHeightReference) ∧
      (g.cornerType.isSome = true → g'.cornerType = g.cornerType) ∧
      (g.cornerType = none → g'.cornerType = s.cornerType) ∧
      (g.granularity.isSome = true → g'.granularity = g.granularity) ∧
      (g.granularity = none → g'.granularity = s.granularity) ∧
      (g.fill.isSome = true → g'.fill = g.fill) ∧
      (g.fill = none → g'.fill = s.fill) ∧
      (g.material.isSome = true → g'.material = g.material) ∧
      (g.material = none → g'.material = s.material) ∧
      (g.outline.isSome = true → g'.outline = g.outline) ∧
      (g.outline = none → g'.outline = s.outline) ∧
      (g.outlineColor.isSome = true → g'.outlineColor = g.outlineColor) ∧
      (g.outlineColor = none → g'.outlineColor = s.outlineColor) ∧
      (g.outlineWidth.isSome = true → g'.outlineWidth = g.outlineWidth) ∧
      (g.outlineWidth = none → g'.outlineWidth = s.outlineWidth) ∧
      (g.shadows.isSome = true → g'.shadows = g.shadows) ∧
      (g.shadows = none → g'.shadows = s.shadows) ∧
      (g.distanceDisplayCondition.isSome = true →
        g'.distanceDisplayCondition = g.distanceDisplayCondition) ∧
      (g.distanceDisplayCondition = none →
        g'.distanceDisplayCondition = s.distanceDisplayCondition) ∧
      (g.classificationType.isSome = true →
        g'.classificationType = g.classificationType) ∧
      (g.classificationType = none → g'.classificationType = s.classificationType) ∧
      (g.zIndex.isSome = true → g'.zIndex = g.zIndex) ∧
      (g.zIndex = none → g'.zIndex = s.zIndex)) ∧
    StripeGraphics.merge g none = .error (.developerError "source is required.") := by
  refine ⟨⟨_, rfl, ?_⟩, rfl⟩
  repeat' apply And.intro
  all_goals intro h
  all_goals first
    | exact defaultValue_of_isSome _ _ h
    | simp [defaultValue, h]

/-- Target and source descriptors for the C10 witness: the target has only
its width defined, the source has positions and width defined. -/
def mergeTarget : StripeGraphicsData :=
  { emptyStripe with width := some (constProp 7) }

/-- Source descriptor for the C10 witness. -/
def mergeSource : StripeGraphicsData :=
  { emptyStripe with
    positions := some (constProp [((3 : Int), (4 : Int), (5 : Int))])
    width := some (constProp 99) }

/-- Witness for C10: merging keeps the target's defined width and copies
the source's positions into the undefined slot. -/
theorem merge_spec_witness :
    ∃ g', StripeGraphics.merge mergeTarget (some mergeSource) = .ok g' ∧
      g'.width = mergeTarget.width ∧ g'.positions = mergeSource.positions := by
  obtain ⟨⟨g', hok, _, _, _, hp2, hw1, _⟩, _⟩ := merge_spec mergeTarget mergeSource
  exact ⟨g', hok, hw1 rfl, hp2 rfl⟩

/-- Claim C2: in both the static pass (sampling at the epoch) and the
dynamic pass (sampling at `t`), when the sampled extrudedHeight is defined
and the sampled height is undefined, the height value fed into the
offset-attribute computation and into height reference-resolution is 0. -/
theorem heightDefault_spec (ext : Externals) (mat : Option MaterialProperty)
    (stripe : StripeGraphicsData) (oS oD : StripeGeometryOptions) (t : Time) :
    (∀ pp wp, stripe.positions = some pp → stripe.width = some wp →
      (Property.getValueOrUndefined stripe.extrudedHeight Iso8601.MINIMUM_VALUE).isSome =
        true →
      Property.getValueOrUndefined stripe.height Iso8601.MINIMUM_VALUE = none →
      ∃ os, StripeGeometryUpdater.setStaticOptions ext mat stripe oS = some os ∧
        os.height = GroundGeometryUpdater.getGeometryHeight (some 0)
          (Property.getValueOrDefault stripe.heightReference Iso8601.MINIMUM_VALUE
            HeightReference.NONE) ∧
        os.offsetAttribute = ext.computeGeometryOffsetAttribute (some 0)
          (Property.getValueOrDefault stripe.heightReference Iso8601.MINIMUM_VALUE
            HeightReference.NONE)
          (Property.getValueOrUndefined stripe.extrudedHeight Iso8601.MINIMUM_VALUE)
          (Property.getValueOrDefault stripe.extrudedHeightReference Iso8601.MINIMUM_VALUE
            HeightReference.NONE)) ∧
    ((Property.getValueOrUndefined stripe.extrudedHeight t).isSome = true →
      Property.getValueOrUndefined stripe.height t = none →
      (DynamicStripeGeometryUpdater.setOptions ext stripe t oD).height =
        GroundGeometryUpdater.getGeometryHeight (some 0)
          (Property.getValueOrDefault stripe.heightReference t HeightReference.NONE) ∧
      (DynamicStripeGeometryUpdater.setOptions ext stripe t oD).offsetAttribute =
        ext.computeGeometryOffsetAttribute (some 0)
          (Property.getValueOrDefault stripe.heightReference t HeightReference.NONE)
          (Property.getValueOrUndefined stripe.extrudedHeight t)
          (Property.getValueOrDefault stripe.extrudedHeightReference t
            HeightReference.NONE)) := by
  constructor
  · intro pp wp hpos hwid he hh
    simp only [StripeGeometryUpdater.setStaticOptions, hpos, hwid]
    refine ⟨_, rfl, ?_, ?_⟩ <;>
      simp [StripeGeometryUpdater.staticOptions1, he, hh]
  · intro he hh
    constructor <;>
      simp [DynamicStripeGeometryUpdater.setOptions, DynamicStripeGeometryUpdater.options1,
        he, hh]

/-- A stripe descriptor with an extrusion height but no base height, for
the C2 witness. -/
def stripeExtrudedOnly : StripeGraphicsData :=
  { emptyStripe with
    positions := some (constProp [((0 : Int), (0 : Int), (0 : Int)), (1, 0, 0)])
    width := some (constProp 2)
    extrudedHeight := some (constProp 50) }

/-- Witness for C2: with extrudedHeight 50 and no height, the static pass
resolves the base height to 0. -/
theorem heightDefault_spec_witness :
    ∃ os, StripeGeometryUpdater.setStaticOptions trivialExternals none stripeExtrudedOnly
      emptyOptions = some os ∧ os.height = some (GeomHeight.val 0) := by
  obtain ⟨os, h1, h2, h3⟩ :=
    (heightDefault_spec trivialExternals none stripeExtrudedOnly emptyOptions emptyOptions
      0).1 _ _ rfl rfl rfl rfl
  refine ⟨os, h1, ?_⟩
  rw [h2]
  rfl

/-- Claim C3: in both passes, when the reference-resolved extrudedHeight
is the CLAMP_TO_GROUND sentinel, the stored extrudedHeight is the minimum
terrain height returned by the approximator for the shape's own computed
bounding rectangle; when it is not the sentinel, the resolved value is
stored unchanged and no terrain lookup happens (the result is invariant
under replacing the terrain approximator). -/
theorem clampExtrude_spec (ext : Externals) (mat : Option MaterialProperty)
    (stripe : StripeGraphicsData) (oS oD : StripeGeometryOptions) (t : Time) :
    (∀ pp wp, stripe.positions = some pp → stripe.width = some wp →
      (GroundGeometryUpdater.getGeometryExtrudedHeight
          (Property.getValueOrUndefined stripe.extrudedHeight Iso8601.MINIMUM_VALUE)
          (Property.getValueOrDefault stripe.extrudedHeightReference Iso8601.MINIMUM_VALUE
            HeightReference.NONE) = some GeomHeight.clampSentinel →
        ∃ os, StripeGeometryUpdater.setStaticOptions ext mat stripe oS = some os ∧
          os.extrudedHeight = some (GeomHeight.val
            (ext.getMinimumMaximumHeights (ext.computeRectangle
              (StripeGeometryUpdater.staticOptions1 ext mat stripe pp wp
                oS))).minimumTerrainHeight)) ∧
      (GroundGeometryUpdater.getGeometryExtrudedHeight
          (Property.getValueOrUndefined stripe.extrudedHeight Iso8601.MINIMUM_VALUE)
          (Property.getValueOrDefault stripe.extrudedHeightReference Iso8601.MINIMUM_VALUE
            HeightReference.NONE) ≠ some GeomHeight.clampSentinel →
        ∃ os, StripeGeometryUpdater.setStaticOptions ext mat stripe oS = some os ∧
          os.extrudedHeight = GroundGeometryUpdater.getGeometryExtrudedHeight
            (Property.getValueOrUndefined stripe.extrudedHeight Iso8601.MINIMUM_VALUE)
            (Property.getValueOrDefault stripe.extrudedHeightReference Iso8601.MINIMUM_VALUE
              HeightReference.NONE) ∧
          ∀ gmm, StripeGeometryUpdater.setStaticOptions
            { ext with getMinimumMaximumHeights := gmm } mat stripe oS = some os)) ∧
    ((GroundGeometryUpdater.getGeometryExtrudedHeight
        (Property.getValueOrUndefined stripe.extrudedHeight t)
        (Property.getValueOrDefault stripe.extrudedHeightReference t HeightReference.NONE) =
          some GeomHeight.clampSentinel →
      (DynamicStripeGeometryUpdater.setOptions ext stripe t oD).extrudedHeight =
        some (GeomHeight.val
          (ext.getMinimumMaximumHeights (ext.computeRectangle
            (DynamicStripeGeometryUpdater.options1 ext stripe t oD))).minimumTerrainHeight)) ∧
     (GroundGeometryUpdater.getGeometryExtrudedHeight
        (Property.getValueOrUndefined stripe.extrudedHeight t)
        (Property.getValueOrDefault stripe.extrudedHeightReference t HeightReference.NONE) ≠
          some GeomHeight.clampSentinel →
      (DynamicStripeGeometryUpdater.setOptions ext stripe t oD).extrudedHeight =
        GroundGeometryUpdater.getGeometryExtrudedHeight
          (Property.getValueOrUndefined stripe.extrudedHeight t)
          (Property.getValueOrDefault stripe.extrudedHeightReference t
            HeightReference.NONE) ∧
      ∀ gmm, DynamicStripeGeometryUpdater.setOptions
          { ext with getMinimumMaximumHeights := gmm } stripe t oD =
        DynamicStripeGeometryUpdater.setOptions ext stripe t oD)) := by
  constructor
  · intro pp wp hpos hwid
    constructor
    · intro hsent
      simp only [StripeGeometryUpdater.setStaticOptions, hpos, hwid]
      refine ⟨_, rfl, ?_⟩
      simp [hsent]
    · intro hns
      simp only [StripeGeometryUpdater.setStaticOptions, hpos, hwid]
      refine ⟨_, rfl, ?_, ?_⟩
      · simp [if_neg hns]
      · intro gmm
        simp [StripeGeometryUpdater.staticOptions1, if_neg hns]
  · constructor
    · intro hsent
      simp [DynamicStripeGeometryUpdater.setOptions, hsent]
    · intro hns
      constructor
      · simp [DynamicStripeGeometryUpdater.setOptions, if_neg hns]
      · intro gmm
        simp [DynamicStripeGeometryUpdater.setOptions,
          DynamicStripeGeometryUpdater.options1, if_neg hns]

/-- A stripe descriptor whose extrusion is clamped to ground, for the C3
witness. -/
def stripeClamped : StripeGraphicsData :=
  { emptyStripe with
    positions := some (constProp [((0 : Int), (0 : Int), (0 : Int)), (1, 0, 0)])
    width := some (constProp 2)
    extrudedHeight := some (constProp 7)
    extrudedHeightReference := some (constProp HeightReference.CLAMP_TO_GROUND) }

/-- Witness for C3: a clamp-to-ground extrusion resolves to the
approximator's minimum terrain height (0 for the trivial externals). -/
theorem clampExtrude_spec_witness :
    ∃ os, StripeGeometryUpdater.setStaticOptions trivialExternals none stripeClamped
      emptyOptions = some os ∧ os.extrudedHeight = some (GeomHeight.val 0) := by
  obtain ⟨os, h1, h2⟩ :=
    ((clampExtrude_spec trivialExternals none stripeClamped emptyOptions emptyOptions
      0).1 _ _ rfl rfl).1 rfl
  refine ⟨os, h1, ?_⟩
  rw [h2]
  rfl

/-- Claim C4: the static pass samples every field at the fixed epoch; for
a descriptor whose samples at the epoch coincide with its samples at `t`
(and a bounding-rectangle computation that only depends on the geometric
fields positions, width, cornerType and granularity, as the GeometryFactory
contract provides), the dynamic pass at `t` resolves the same height,
extrudedHeight and offsetAttribute as the static pass. -/
theorem staticDynamic_agree (ext : Externals) (mat : Option MaterialProperty)
    (stripe : StripeGraphicsData) (oS oD : StripeGeometryOptions) (t : Time)
    (pp : PropertyM (List Point)) (wp : PropertyM Int)
    (hpos : stripe.positions = some pp) (hwid : stripe.width = some wp)
    (hrect : ∀ o o' : StripeGeometryOptions, o.positions = o'.positions →
      o.width = o'.width → o.cornerType = o'.cornerType →
      o.granularity = o'.granularity →
      ext.computeRectangle o = ext.computeRectangle o')
    (hppv : pp.getValue Iso8601.MINIMUM_VALUE = pp.getValue t)
    (hwpv : wp.getValue Iso8601.MINIMUM_VALUE = wp.getValue t)
    (hh : Property.getValueOrUndefined stripe.height Iso8601.MINIMUM_VALUE =
      Property.getValueOrUndefined stripe.height t)
    (hhr : Property.getValueOrDefault stripe.heightReference Iso8601.MINIMUM_VALUE
      HeightReference.NONE =
      Property.getValueOrDefault stripe.heightReference t HeightReference.NONE)
    (heh : Property.getValueOrUndefined stripe.extrudedHeight Iso8601.MINIMUM_VALUE =
      Property.getValueOrUndefined stripe.extrudedHeight t)
    (hehr : Property.getValueOrDefault stripe.extrudedHeightReference Iso8601.MINIMUM_VALUE
      HeightReference.NONE =
      Property.getValueOrDefault stripe.extrudedHeightReference t HeightReference.NONE)
    (hgr : Property.getValueOrUndefined stripe.granularity Iso8601.MINIMUM_VALUE =
      Property.getValueOrUndefined stripe.granularity t)
    (hct : Property.getValueOrUndefined stripe.cornerType Iso8601.MINIMUM_VALUE =
      Property.getValueOrUndefined stripe.cornerType t) :
    ∃ os, StripeGeometryUpdater.setStaticOptions ext mat stripe oS = some os ∧
      os.height = (DynamicStripeGeometryUpdater.setOptions ext stripe t oD).height ∧
      os.extrudedHeight =
        (DynamicStripeGeometryUpdater.setOptions ext stripe t oD).extrudedHeight ∧
      os.offsetAttribute =
        (DynamicStripeGeometryUpdater.setOptions ext stripe t oD).offsetAttribute := by
  have hr : ext.computeRectangle (StripeGeometryUpdater.staticOptions1 ext mat stripe pp wp oS)
      = ext.computeRectangle (DynamicStripeGeometryUpdater.options1 ext stripe t oD) := by
    refine hrect _ _ ?_ ?_ ?_ ?_
    · simp only [StripeGeometryUpdater.staticOptions1, DynamicStripeGeometryUpdater.options1,
        hpos, Property.getValueOrUndefined]
      exact hppv
    · simp only [StripeGeometryUpdater.staticOptions1, DynamicStripeGeometryUpdater.options1,
        hwid, Property.getValueOrUndefined]
      exact hwpv
    · simp only [StripeGeometryUpdater.staticOptions1, DynamicStripeGeometryUpdater.options1]
      exact hct
    · simp only [StripeGeometryUpdater.staticOptions1, DynamicStripeGeometryUpdater.options1]
      exact hgr
  simp only [StripeGeometryUpdater.setStaticOptions, hpos, hwid]
  refine ⟨_, rfl, ?_, ?_, ?_⟩
  · simp only [StripeGeometryUpdater.staticOptions1, DynamicStripeGeometryUpdater.setOptions,
      DynamicStripeGeometryUpdater.options1, hh, hhr, heh]
  · simp only [DynamicStripeGeometryUpdater.setOptions]
    rw [hr, heh, hehr]
  · simp only [StripeGeometryUpdater.staticOptions1, DynamicStripeGeometryUpdater.setOptions,
      DynamicStripeGeometryUpdater.options1, hh, hhr, heh, hehr]

/-- A fully constant stripe descriptor for the C4 witness. -/
def stripeConstant : StripeGraphicsData :=
  { emptyStripe with
    positions := some (constProp [((0 : Int), (0 : Int), (0 : Int)), (1, 0, 0)])
    width := some (constProp 2)
    height := some (constProp 3)
    extrudedHeight := some (constProp 9) }

/-- Witness for C4: for a fully constant descriptor the static pass and
the dynamic pass at time 5 agree on height, extrudedHeight and
offsetAttribute. -/
theorem staticDynamic_agree_witness :
    ∃ os, StripeGeometryUpdater.setStaticOptions trivialExternals none stripeConstant
        emptyOptions = some os ∧
      os.height =
        (DynamicStripeGeometryUpdater.setOptions trivialExternals stripeConstant 5
          emptyOptions).height ∧
      os.extrudedHeight =
        (DynamicStripeGeometryUpdater.setOptions trivialExternals stripeConstant 5
          emptyOptions).extrudedHeight ∧
      os.offsetAttribute =
        (DynamicStripeGeometryUpdater.setOptions trivialExternals stripeConstant 5
          emptyOptions).offsetAttribute :=
  staticDynamic_agree trivialExternals none stripeConstant emptyOptions emptyOptions 5
    _ _ rfl rfl (fun _ _ _ _ _ _ => rfl) rfl rfl rfl rfl rfl rfl rfl rfl

end Cesium
